import Mathlib

/-!
Shallow embedding of the RedditPodcast pipeline, covering the run
orchestrator (`src/News_agent_v3/workflow.py` together with
`reddit_fetcher.py`, `utils.py`, `telegram_sender.py`) and the
background scheduler (`src/News_agent/scheduler.py`, `utils.py`).
External providers (Reddit, the LLM, IMAP, Telegram, the filesystem)
are modelled as explicit outcome parameters; the control flow, the
early-exit conditions, the error strings and the shape of every return
value are translated from the Python source.
-/

namespace NewsAgent

/-! ### `src/News_agent/utils.py` — `parse_subreddit_config` -/

/-- ASCII whitespace, for `str.strip()` (the configuration strings this
parser sees are ASCII; wider Unicode whitespace is not modelled). -/
def pyIsSpace (c : Char) : Bool :=
  c = ' ' || c = '\t' || c = '\n' || c = '\r'

def trimChars (l : List Char) : List Char :=
  ((l.dropWhile pyIsSpace).reverse.dropWhile pyIsSpace).reverse

/-- `s.strip()`. -/
def pyStrip (s : String) : String := String.mk (trimChars s.data)

/-- `s.split(sep)` for a one-character separator: `"".split(',') == ['']`,
and every separator occurrence opens a new piece. -/
def charSplit (sep : Char) : List Char → List (List Char)
  | [] => [[]]
  | c :: cs =>
    match charSplit sep cs with
    | [] => [[]]
    | h :: t => if c = sep then [] :: h :: t else (c :: h) :: t

def pySplit (s : String) (sep : Char) : List String :=
  (charSplit sep s.data).map String.mk

def joinWith (sep : Char) : List (List Char) → List Char
  | [] => []
  | [l] => l
  | l :: ls => l ++ sep :: joinWith sep ls

/-- Python `pair.split(sep, 1)`: the piece before the first separator and
the re-joined rest. -/
def splitOnce (s : String) (sep : Char) : String × String :=
  match charSplit sep s.data with
  | [] => (s, "")
  | h :: t => (String.mk h, String.mk (joinWith sep t))

/-- Python `int(s)` (ASCII-decimal subset: surrounding whitespace, an
optional sign, then digits); `none` models the `ValueError` branch. -/
def pyInt (s : String) : Option Int :=
  let t := trimChars s.data
  let (sign, digits) : Int × List Char :=
    match t with
    | '-' :: rest => (-1, rest)
    | '+' :: rest => (1, rest)
    | _ => (1, t)
  if digits.isEmpty || !digits.all Char.isDigit then none
  else some (sign * (digits.foldl (fun n c => n * 10 + (c.toNat - '0'.toNat)) 0 : Nat))

/-- Assignment `d[k] = v` into an insertion-ordered Python dict, modelled as
an association list: an existing key keeps its position, a new key is
appended. -/
def dictInsert (d : List (String × Int)) (k : String) (v : Int) : List (String × Int) :=
  if d.any (fun p => p.1 = k) then
    d.map (fun p => if p.1 = k then (k, v) else p)
  else d ++ [(k, v)]

/-- `parse_subreddit_config` (src/News_agent/utils.py): split the string on
commas, keep the pairs containing a colon, parse the limit with `int`, and
silently drop pairs whose limit does not parse. -/
def parse_subreddit_config (config_string : String) : List (String × Int) :=
  (pySplit config_string ',').foldl
    (fun acc pair =>
      let pair := pyStrip pair
      if pair.data.any (fun c => c = ':') then
        let (name, limit) := splitOnce pair ':'
        match pyInt (pyStrip limit) with
        | some n => dictInsert acc (pyStrip name) n
        | none => acc
      else acc)
    []

/-! ### `src/News_agent/scheduler.py` — persisted schedule configuration -/

/-- One JSON-representable scalar stored inside the embedded run
configuration dict (the claim restricts `config` values to
strings/ints/bools, which JSON round-trips losslessly). -/
inductive ConfigVal where
  | str (s : String)
  | int (n : Int)
  | bool (b : Bool)
  deriving DecidableEq, Repr

/-- The JSON object written by `save_config`: the five keys, each of which
an arbitrary on-disk file may also lack (`Option`), mirroring the
`data.get(key, default)` reads in `load_config`. -/
structure ScheduleRecord where
  enabled : Option Bool
  hour : Option Int
  minute : Option Int
  timezone : Option String
  config : Option (List (String × ConfigVal))
  deriving DecidableEq, Repr

/-- The in-memory fields of `SimpleScheduler` that `load_config` and
`save_config` touch. -/
structure SchedulerState where
  enabled : Bool
  hour : Int
  minute : Int
  timezone : String
  config : List (String × ConfigVal)
  deriving DecidableEq, Repr

/-- The schedule-config file on disk. `corrupt` models a file whose JSON no
longer parses — in particular one truncated by `open(file, 'w')` when the
subsequent `json.dump` failed part-way. -/
inductive DiskFile where
  | absent
  | record (r : ScheduleRecord)
  | corrupt
  deriving DecidableEq, Repr

/-- Where the `try` body of `save_config` fails, if it fails.
`failOpen`: `open(self.config_file, 'w')` itself raises, before the file is
touched. `failWrite`: the file was opened (and therefore truncated, Python
mode `'w'` semantics) and `json.dump` raised before completing. -/
inductive WriteOutcome where
  | ok
  | failOpen
  | failWrite
  deriving DecidableEq, Repr

/-- The full record `save_config` serializes for state `s`. -/
def recordOf (s : SchedulerState) : ScheduleRecord :=
  { enabled := some s.enabled
    hour := some s.hour
    minute := some s.minute
    timezone := some s.timezone
    config := some s.config }

/-- `SimpleScheduler.load_config`: a missing or unparseable file leaves the
in-memory fields untouched (the exception is caught / the `exists` check
fails); otherwise every field is read with `data.get(key, default)` using
the defaults from the source. -/
def load_config (st : SchedulerState) (disk : DiskFile) : SchedulerState :=
  match disk with
  | .absent => st
  | .corrupt => st
  | .record d =>
    { enabled := d.enabled.getD false
      hour := d.hour.getD 9
      minute := d.minute.getD 0
      timezone := d.timezone.getD "Etc/UTC"
      config := d.config.getD [] }

/-- `SimpleScheduler.save_config`: build the full five-key record, write it,
then update the in-memory fields. Returns (return value, in-memory state
after the call, disk after the call). On `failOpen`/`failWrite` the
exception is caught and `False` returned; the in-memory assignments sit
after the `with open(...)` block, so they never run on failure. -/
def save_config (st : SchedulerState) (disk : DiskFile) (args : SchedulerState)
    (w : WriteOutcome) : Bool × SchedulerState × DiskFile :=
  match w with
  | .failOpen => (false, st, disk)
  | .failWrite => (false, st, .corrupt)
  | .ok => (true, args, .record (recordOf args))

/-! ### `src/News_agent/scheduler.py` — `run_analysis` -/

/-- The keys `run_analysis` reads from the persisted `config` dict, typed;
an absent key is `none` and the `config.get(...)` default applies. -/
structure StoredRunConfig where
  subreddit_config : Option String := none
  time_filter : Option String := none
  top_comments : Option Int := none
  replies_per_comment : Option Int := none
  model : Option String := none
  system_prompt : Option String := none
  user_prompt : Option String := none
  send_to_telegram : Option Bool := none
  deriving DecidableEq, Repr

/-- The argument record `run_analysis` passes to `run_complete_workflow`
(src/News_agent/workflow.py signature). -/
structure SchedArgs where
  subreddit_config : List (String × Int)
  time_filter : String
  top_comments : Int
  replies_per_comment : Int
  model : String
  system_prompt : String
  user_prompt : String
  send_to_telegram : Bool
  deriving DecidableEq, Repr

/-- Observable outcome of one `run_analysis` call: the argument record of
the workflow invocation (`none` when the empty-subreddit early return was
taken), and whether `send_error_notification` was attempted. The `try`
body's only `return` before the workflow call is the empty-dict check; the
surrounding `except` never re-raises. -/
structure RunAnalysisResult where
  invoked : Option SchedArgs
  error_notified : Bool
  deriving DecidableEq, Repr

/-- `SimpleScheduler.run_analysis`: parse the stored subreddit string;
return early when the parse is empty; otherwise call the workflow with the
stored values and the literal `send_to_telegram=True`. -/
def run_analysis (cfg : StoredRunConfig) : RunAnalysisResult :=
  let subreddit_dict := parse_subreddit_config (cfg.subreddit_config.getD "")
  if subreddit_dict.isEmpty then
    { invoked := none, error_notified := false }
  else
    { invoked := some
        { subreddit_config := subreddit_dict
          time_filter := cfg.time_filter.getD "day"
          top_comments := cfg.top_comments.getD 10
          replies_per_comment := cfg.replies_per_comment.getD 5
          model := cfg.model.getD "gemini-2.5-pro"
          system_prompt := cfg.system_prompt.getD ""
          user_prompt := cfg.user_prompt.getD ""
          send_to_telegram := true }
      error_notified := false }

/-! ### `src/News_agent/scheduler.py` — `scheduler_loop`

One simulated second per `Nat` tick. `isMatch t` is
`now.hour == self.hour and now.minute == self.minute` read from a simulated
clock at wall time `t`; the orchestrator invocation itself is instantaneous
on the simulated clock. The loop checks the flag, fires on a match, then
sleeps the extra 60 s and the regular 60 s (so the next check is 120 s
later); without a firing the next check is 60 s later. `fuel` bounds the
number of loop iterations so the cooperative loop is a total function. -/

/-- The list of wall-clock instants at which `scheduler_loop` invoked
`run_analysis`, starting from time `t`, for `fuel` iterations. -/
def scheduler_loop (enabled : Bool) (isMatch : Nat → Bool) : Nat → Nat → List Nat
  | 0, _ => []
  | fuel + 1, t =>
    if enabled && isMatch t then
      t :: scheduler_loop enabled isMatch fuel (t + 120)
    else
      scheduler_loop enabled isMatch fuel (t + 60)

end NewsAgent

namespace NewsAgentV3

/-! ### `src/News_agent_v3/reddit_fetcher.py` — comment ranking

`fetch_post_comments` ranks comments with
`sorted(submission.comments, key=lambda c: c.score, reverse=True)` and
replies with `sorted(comment.replies, key=lambda r: r.score if
hasattr(r, 'score') else 0, reverse=True)`. CPython's `sorted` is a
stable sort, and `reverse=True` is documented to keep elements with
equal keys in their original order; a stable sort for a total preorder
is extensionally unique, so it is embedded as the insertion sort below:
an element is placed in front of the first already-placed element whose
key is `≤` its own, which keeps encounter order on ties because the
element being inserted always comes earlier in the input than the
already-sorted tail. -/

/-- Put `x` in front of the first element whose key is `≤ key x`
(descending stable insertion; `x` precedes every later element of equal
key). -/
def insertByKeyDesc (key : α → Int) (x : α) : List α → List α
  | [] => [x]
  | y :: ys =>
    if key y ≤ key x then x :: y :: ys
    else y :: insertByKeyDesc key x ys

/-- Python `sorted(l, key=key, reverse=True)`: stable descending sort. -/
def sortByKeyDesc (key : α → Int) : List α → List α
  | [] => []
  | x :: xs => insertByKeyDesc key x (sortByKeyDesc key xs)

/-- The score `fetch_post_comments` sorts replies by:
`r.score if hasattr(r, 'score') else 0` (`none` models a reply object
without a `score` attribute). -/
def replyKey (score : Option Int) : Int := score.getD 0

/-- The ordered selection of top-level comments in `fetch_post_comments`:
`sorted(..., key=score, reverse=True)[:min(top_comments_limit, 10)]`.
Each comment is paired with its encounter position in the provider
response, which is only used to state stability. -/
def selectTopComments (comments : List (Nat × Int)) (top_comments_limit : Nat) :
    List (Nat × Int) :=
  (sortByKeyDesc (fun c => c.2) comments).take (min top_comments_limit 10)

/-- The ordered selection of replies for one comment in
`fetch_post_comments`:
`sorted(..., key=score-or-0, reverse=True)[:min(replies_per_comment, 5)]`. -/
def selectTopReplies (replies : List (Nat × Option Int)) (replies_per_comment : Nat) :
    List (Nat × Option Int) :=
  (sortByKeyDesc (fun r => replyKey r.2) replies).take (min replies_per_comment 5)

/-- "`b` may legitimately follow `a`": strictly smaller key, or equal key
and later encounter position. -/
def RankedBelow (key : α → Int) (rank : α → Nat) (a b : α) : Prop :=
  key b < key a ∨ (key a = key b ∧ rank a < rank b)

/-! ### `src/News_agent_v3/workflow.py` and collaborators

`run_complete_workflow` is embedded as a pure function of its arguments
and of a `WorkflowEnv` that records the outcome of every external
effect: per-board Reddit listing, per-post comment fetch, the IMAP
email fetch (which catches internally and yields a list, empty on
failure), the LLM call, each file write, the TTS call and the three
Telegram sends. The timestamped run-folder name is an environment
input. -/

/-- One fetched email (`{subject, sender, date, body}`). -/
structure EmailRec where
  subject : String
  sender : String
  date : String
  body : String
  deriving DecidableEq, Repr

/-- The keyword arguments of `run_complete_workflow`
(src/News_agent_v3/workflow.py), with the defaults from the source.
Generation parameters that only flow through to the LLM call are
omitted; they influence no branch of the orchestrator. -/
structure WorkflowArgs where
  subreddit_config : List (String × Int)
  time_filter : String
  top_comments : Int
  replies_per_comment : Int
  model : String
  system_prompt : String
  user_prompt : String
  send_to_telegram : Bool := false
  generate_tts : Bool := false
  tts_model : Option String := none
  voice_name : Option String := none
  tone_instructions : Option String := none
  fetch_emails : Bool := false
  email_address : Option String := none
  email_password : Option String := none
  allowed_senders : Option (List String) := none

/-- Outcomes of all external effects one workflow invocation performs.
`Except.error e` stands for the exception `e` being raised by that call;
calls whose Python wrapper catches internally are given the caught
result type directly. -/
structure WorkflowEnv where
  /-- `validate_environment()` : `(is_valid, missing_vars)`. -/
  env_valid : Bool × List String
  /-- `subreddit_obj.top(...)` plus formatting, per board name:
  the board's formatted text and its post URLs, or the raised exception. -/
  fetch_top : String → Except String (String × List String)
  /-- `fetch_post_comments`-level fetch per post URL: the formatted
  post-with-comments text, or the raised exception. -/
  fetch_comments : String → Except String String
  /-- `EmailFetcher.fetch_emails(...)` result (it catches internally and
  returns `[]` on connection/login failure). -/
  emails : List EmailRec
  /-- `format_emails_for_analysis` on a fetched email list. -/
  format_emails : List EmailRec → String
  /-- `analyze_reddit_data(...)`: the returned text, or the raised
  exception. -/
  analysis : Except String String
  /-- Whether the writes inside `save_analysis_to_file` succeed (its
  `except IOError` branch returns `(None, None, None)` otherwise). The
  run folder is created before this point either way. -/
  save_analysis_ok : Bool
  /-- `save_llm_input(...)`: no internal catch, may raise. -/
  save_llm : Except String Unit
  /-- `save_email_data(...)`: no internal catch, may raise. -/
  save_email : Except String Unit
  /-- `TTSInference.generate_audio(...)`: the audio file path, or the
  raised exception (caught by the workflow). -/
  tts : Except String String
  /-- `send_telegram_message` / `send_telegram_document` /
  `send_telegram_audio` success flags (each catches internally). -/
  tg_msg_ok : Bool
  tg_file_ok : Bool
  tg_audio_ok : Bool
  /-- The timestamped `run_YYYY-MM-DD_HH-MM-SS` folder path chosen by
  `save_analysis_to_file`. -/
  run_folder : String

/-- Python truthiness of an optional string (`None` and `""` are falsy). -/
def truthyStr : Option String → Bool
  | some s => !s.isEmpty
  | none => false

/-- Python truthiness of an optional list (`None` and `[]` are falsy). -/
def truthyList : Option (List β) → Bool
  | some l => !l.isEmpty
  | none => false

/-- The inline marker `fetch_top_posts` substitutes for a board whose
fetch raised `e`. -/
def board_error_msg (subreddit e : String) : String :=
  s!"❌ Error fetching posts from r/{subreddit}: {e}"

/-- The inline marker `fetch_post_comments` substitutes for a post whose
fetch raised `e`. -/
def comments_error_msg (post_url e : String) : String :=
  s!"❌ Error fetching comments from {post_url}: {e}"

/-- `fetch_top_posts` (src/News_agent_v3/reddit_fetcher.py): the whole
body is inside `try`; an exception becomes `(error_msg, [])`. -/
def fetch_top_posts (env : WorkflowEnv) (subreddit : String) : String × List String :=
  match env.fetch_top subreddit with
  | .ok (formatted, urls) => (formatted, urls)
  | .error e => (board_error_msg subreddit e, [])

/-- `fetch_post_comments` at the granularity the workflow observes: the
formatted text, with an exception turned into the inline marker. -/
def fetch_post_comments (env : WorkflowEnv) (post_url : String) : String :=
  match env.fetch_comments post_url with
  | .ok formatted => formatted
  | .error e => comments_error_msg post_url e

/-- `"="*80`. -/
def sep80 : String := String.mk (List.replicate 80 '=')

/-- `all_links` accumulated across boards, in configured board order and
per-board discovery order. -/
def all_links (env : WorkflowEnv) (subreddit_config : List (String × Int)) : List String :=
  (subreddit_config.map (fun p => (fetch_top_posts env p.1).2)).flatten

/-- One entry of the raw export:
`f"LINK: {link}\n\n{comments_text}\n\n{'='*80}\n\n"`. -/
def raw_post_entry (env : WorkflowEnv) (link : String) : String :=
  "LINK: " ++ link ++ "\n\n" ++ fetch_post_comments env link ++ "\n\n" ++ sep80 ++ "\n\n"

/-- `fetch_all_reddit_data` (src/News_agent_v3/reddit_fetcher.py):
collect per-board text and links (the per-board text is gathered but not
part of the returned pair, as in the source), raise when no link was
discovered, otherwise fetch each post's comments and build
`(full_data, raw_data)`. -/
def fetch_all_reddit_data (env : WorkflowEnv) (subreddit_config : List (String × Int)) :
    Except String (String × String) :=
  let links := all_links env subreddit_config
  if links.isEmpty then
    .error "No posts found from any subreddit"
  else
    let full_data := String.intercalate "\n\n" (links.map (fetch_post_comments env))
    let raw_data := "REDDIT RAW DATA - POSTS AND COMMENTS\n" ++ sep80 ++ "\n\n"
      ++ String.join (links.map (raw_post_entry env))
    .ok (full_data, raw_data)

/-- `send_analysis_results` (src/News_agent_v3/telegram_sender.py):
message, document, then audio only when an audio file exists; overall
success is the conjunction. Each send catches internally. -/
def send_analysis_results (env : WorkflowEnv) (audio_file : Option String) : Bool :=
  let msg_success := env.tg_msg_ok
  let file_success := env.tg_file_ok
  let audio_success := match audio_file with
    | some _ => env.tg_audio_ok
    | none => true
  msg_success && file_success && audio_success

/-- Everything a `run_complete_workflow` call makes observable: the
returned 5-tuple `(analysis_file-or-error, raw_data_file, audio_file,
email_data_file, llm_input_file)`, whether the run folder was created
(`run_folder.mkdir` in `save_analysis_to_file`), whether
`send_analysis_results` ran and with which success value, and whether
`send_error_notification` was attempted. -/
structure WorkflowResult where
  ret : String × Option String × Option String × Option String × Option String
  dir_created : Bool
  telegram : Option Bool
  error_notified : Bool
  deriving Repr

/-- Whether the email branch runs and finds messages: the flag and all
three credentials/sender values must be truthy and the fetch must return
a non-empty list (the `emails` variable is reset to `None` otherwise). -/
def emails_fetched (args : WorkflowArgs) (env : WorkflowEnv) : Option (List EmailRec) :=
  if args.fetch_emails && truthyStr args.email_address
      && truthyStr args.email_password && truthyList args.allowed_senders then
    if env.emails.isEmpty then none else some env.emails
  else none

/-- `if generate_tts and tts_model and voice_name:`. -/
def tts_requested (args : WorkflowArgs) : Bool :=
  args.generate_tts && truthyStr args.tts_model && truthyStr args.voice_name

/-- The `audio_file` value after step 5: produced only when TTS was
requested with both identifiers, and reset to `None` when
`generate_audio` raised (the exception is caught locally). -/
def workflow_audio (args : WorkflowArgs) (env : WorkflowEnv) : Option String :=
  if tts_requested args then
    match env.tts with
    | .ok f => some f
    | .error _ => none
  else none

/-- The `except Exception` branch of `run_complete_workflow`:
`f"Error during workflow: {e}"`, optional error notification, and the
all-`None` return. `dir_created` records whether the failure happened
after `save_analysis_to_file` created the run folder. -/
def workflow_error (args : WorkflowArgs) (e : String) (dir_created : Bool) : WorkflowResult :=
  { ret := ("Error during workflow: " ++ e, none, none, none, none)
    dir_created := dir_created
    telegram := none
    error_notified := args.send_to_telegram }

/-- `run_complete_workflow` (src/News_agent_v3/workflow.py), step for
step: empty-dict and environment validation (which return the bare error
message), Reddit fetch, optional email fetch, AI analysis with the
100-character floor, the four file writes (the first of which creates
the run folder), optional TTS with a local catch, and the optional
Telegram notification whose outcome does not feed into the return
value. -/
def run_complete_workflow (args : WorkflowArgs) (env : WorkflowEnv) : WorkflowResult :=
  if args.subreddit_config.isEmpty then
    { ret := ("❌ subreddit_config is empty", none, none, none, none)
      dir_created := false, telegram := none, error_notified := false }
  else if !env.env_valid.1 then
    { ret := ("Missing required environment variables: "
        ++ String.intercalate ", " env.env_valid.2, none, none, none, none)
      dir_created := false, telegram := none, error_notified := false }
  else
    match fetch_all_reddit_data env args.subreddit_config with
    | .error e => workflow_error args e false
    | .ok (reddit_data, raw_reddit_data) =>
      if reddit_data.isEmpty then workflow_error args "No posts found" false
      else
        let emailsOpt : Option (List EmailRec) := emails_fetched args env
        let email_content : String :=
          match emailsOpt with
          | some es => env.format_emails es
          | none => ""
        -- `combined_content` is passed to the LLM and written by
        -- `save_llm_input`, both abstracted into `env`; it steers no branch.
        let _combined_content : String :=
          if email_content.isEmpty then raw_reddit_data
          else raw_reddit_data ++ "\n\n---\n\n" ++ email_content
        match env.analysis with
        | .error e => workflow_error args e false
        | .ok analysis =>
          if analysis.isEmpty || analysis.length < 100 then
            workflow_error args "Analysis too short or empty" false
          else
            -- save_analysis_to_file: mkdir creates the run folder, then writes
            if !env.save_analysis_ok then
              workflow_error args "Failed to save analysis files" true
            else
              let analysis_file := env.run_folder ++ "/analysis.txt"
              let raw_data_file := env.run_folder ++ "/raw_data.txt"
              match env.save_llm with
              | .error e => workflow_error args e true
              | .ok _ =>
                let llm_input_file := env.run_folder ++ "/llm_input.txt"
                let email_save : Except String (Option String) :=
                  match emailsOpt with
                  | some _ =>
                    match env.save_email with
                    | .error e => .error e
                    | .ok _ => .ok (some (env.run_folder ++ "/emails.json"))
                  | none => .ok none
                match email_save with
                | .error e => workflow_error args e true
                | .ok email_data_file =>
                  let audio_file : Option String := workflow_audio args env
                  let telegram : Option Bool :=
                    if args.send_to_telegram then
                      some (send_analysis_results env audio_file)
                    else none
                  { ret := (analysis_file, some raw_data_file, audio_file,
                      email_data_file, some llm_input_file)
                    dir_created := true
                    telegram := telegram
                    error_notified := false }

/-- The exact condition under which the `try` body of
`run_complete_workflow` raises while working through steps 2–5 (Reddit
fetch, newsletter fetch, analysis, persistence): validation must have
passed (otherwise the function returned before the `try`), and then one
of the `raise` sites fires or an uncaught file write fails. The
newsletter step itself contributes no case: `EmailFetcher.fetch_emails`
catches internally and returns `[]`. -/
def step_exception (args : WorkflowArgs) (env : WorkflowEnv) : Bool :=
  !args.subreddit_config.isEmpty && env.env_valid.1 &&
    (match fetch_all_reddit_data env args.subreddit_config with
     | .error _ => true
     | .ok (reddit_data, _) =>
       reddit_data.isEmpty ||
         (match env.analysis with
          | .error _ => true
          | .ok analysis =>
            analysis.isEmpty || analysis.length < 100 ||
              !env.save_analysis_ok ||
              (match env.save_llm with
               | .error _ => true
               | .ok _ =>
                 (emails_fetched args env).isSome &&
                   (match env.save_email with
                    | .error _ => true
                    | .ok _ => false))))

end NewsAgentV3

namespace NewsAgent

/-! ### Concrete sample inputs used by the witness theorems -/

def sampleState : SchedulerState :=
  { enabled := true, hour := 7, minute := 0, timezone := "Etc/UTC"
    config := [("subreddit_config", .str "test:2")] }

def sampleState2 : SchedulerState :=
  { enabled := false, hour := 9, minute := 30, timezone := "Europe/Warsaw"
    config := [] }

def sampleStoredCfg : StoredRunConfig :=
  { subreddit_config := some "test:2", send_to_telegram := some false }

def sampleSchedArgs : SchedArgs :=
  { subreddit_config := [("test", 2)], time_filter := "day", top_comments := 10
    replies_per_comment := 5, model := "gemini-2.5-pro", system_prompt := ""
    user_prompt := "", send_to_telegram := true }

def droppedPairsCfg : StoredRunConfig :=
  { subreddit_config := some "x, y, z:ten" }

end NewsAgent

namespace NewsAgentV3

/-! ### Concrete sample inputs used by the witness theorems -/

def sampleArgs : WorkflowArgs :=
  { subreddit_config := [("test", 2)], time_filter := "day", top_comments := 5
    replies_per_comment := 3, model := "gemini-2.5-pro", system_prompt := "sys"
    user_prompt := "user", send_to_telegram := true }

def sampleAnalysis : String := String.mk (List.replicate 120 'a')

def shortAnalysis : String := String.mk (List.replicate 40 'a')

/-- An environment in which every step a default `sampleArgs` run touches
succeeds, the TTS provider is down, and the Telegram message send fails
while the document send succeeds. -/
def sampleEnvOk : WorkflowEnv :=
  { env_valid := (true, [])
    fetch_top := fun _ => .ok ("=== TOP POSTS from r/test (day) ===",
      ["https://reddit.com/r/test/comments/1", "https://reddit.com/r/test/comments/2"])
    fetch_comments := fun _ => .ok "POST: something"
    emails := []
    format_emails := fun _ => ""
    analysis := .ok sampleAnalysis
    save_analysis_ok := true
    save_llm := .ok ()
    save_email := .ok ()
    tts := .error "tts provider down"
    tg_msg_ok := false
    tg_file_ok := true
    tg_audio_ok := true
    run_folder := "outputs/run_2026-10-12_00-00-00" }

/-- Same environment, but the model returns a 40-character analysis. -/
def sampleEnvShort : WorkflowEnv := { sampleEnvOk with analysis := .ok shortAnalysis }

/-- Same environment, but every board listing and every comment fetch
raises, so no link is discovered. -/
def sampleEnvNoLinks : WorkflowEnv :=
  { sampleEnvOk with
    fetch_top := fun _ => .error "boom"
    fetch_comments := fun _ => .error "bust" }

/-- The `full_data` component `fetch_all_reddit_data` produces for
`sampleEnvOk` and `sampleArgs`. -/
def sampleFull : String :=
  String.intercalate "\n\n"
    ((all_links sampleEnvOk sampleArgs.subreddit_config).map (fetch_post_comments sampleEnvOk))

/-- The `raw_data` component `fetch_all_reddit_data` produces for
`sampleEnvOk` and `sampleArgs`. -/
def sampleRaw : String :=
  "REDDIT RAW DATA - POSTS AND COMMENTS\n" ++ sep80 ++ "\n\n"
    ++ String.join ((all_links sampleEnvOk sampleArgs.subreddit_config).map (raw_post_entry sampleEnvOk))

end NewsAgentV3

namespace NewsAgent

/-! ### Scheduler theorems -/

theorem scheduler_loop_le (enabled : Bool) (isMatch : Nat → Bool) :
    ∀ (fuel t : Nat), ∀ x ∈ scheduler_loop enabled isMatch fuel t, t ≤ x := by
  intro fuel
  induction fuel with
  | zero => intro t x hx; simp [scheduler_loop] at hx
  | succ n ih =>
    intro t x hx
    rw [scheduler_loop] at hx
    split at hx
    · rcases List.mem_cons.mp hx with h | h
      · omega
      · have := ih (t + 120) x h; omega
    · have := ih (t + 60) x hx; omega

theorem scheduler_loop_spaced (enabled : Bool) (isMatch : Nat → Bool) :
    ∀ (fuel t : Nat),
      (scheduler_loop enabled isMatch fuel t).Pairwise (fun a b => a + 120 ≤ b) := by
  intro fuel
  induction fuel with
  | zero => intro t; simp [scheduler_loop]
  | succ n ih =>
    intro t
    rw [scheduler_loop]
    split
    · refine List.pairwise_cons.mpr ⟨?_, ih (t + 120)⟩
      intro x hx
      exact scheduler_loop_le enabled isMatch n (t + 120) x hx
    · exact ih (t + 60)

/-- C2: while the scheduler is enabled, a firing is followed by an extra
full 60-second sleep on top of the regular one, so with a simulated clock
whose hour:minute matches throughout the first 90 seconds, the check cycle
invokes the orchestrator exactly once within those 90 seconds (namely at
t = 0), and any two firings ever are at least 120 seconds apart. -/
theorem scheduler_fires_once_per_matching_minute (isMatch : Nat → Bool) (fuel : Nat)
    (hm : ∀ t, t ≤ 90 → isMatch t = true) (hf : 1 ≤ fuel) :
    (scheduler_loop true isMatch fuel 0).filter (fun t => t ≤ 90) = [0] ∧
    (scheduler_loop true isMatch fuel 0).Pairwise (fun a b => a + 120 ≤ b) := by
  refine ⟨?_, scheduler_loop_spaced true isMatch fuel 0⟩
  obtain ⟨n, rfl⟩ : ∃ n, fuel = n + 1 := ⟨fuel - 1, by omega⟩
  rw [scheduler_loop]
  rw [if_pos (by simp [hm 0 (by omega)])]
  have htail : (scheduler_loop true isMatch n (0 + 120)).filter (fun t => t ≤ 90) = [] := by
    rw [List.filter_eq_nil_iff]
    intro x hx
    have := scheduler_loop_le true isMatch n (0 + 120) x hx
    simp only [decide_eq_true_eq]
    omega
  simp [List.filter_cons, htail]

/-- C2 witness: a clock matching for the first 90 simulated seconds and two
loop iterations produce exactly the firing at t = 0. -/
theorem scheduler_fires_once_witness :
    (scheduler_loop true (fun t => t ≤ 90) 2 0).filter (fun t => t ≤ 90) = [0] ∧
    (scheduler_loop true (fun t => t ≤ 90) 2 0).Pairwise (fun a b => a + 120 ≤ b) :=
  scheduler_fires_once_per_matching_minute (fun t => t ≤ 90) 2
    (fun _ ht => decide_eq_true ht) (by omega)

/-- C3: saving a ScheduleState with `save_config` succeeds, replaces the
in-memory fields with exactly the saved state, and a subsequent
`load_config` of the written record reproduces the state:
`load(save(s)) = s`, with memory equal to the persisted record. -/
theorem save_then_load_roundtrip (st₀ : SchedulerState) (disk₀ : DiskFile)
    (s : SchedulerState) :
    (save_config st₀ disk₀ s .ok).1 = true ∧
    (save_config st₀ disk₀ s .ok).2.1 = s ∧
    load_config (save_config st₀ disk₀ s .ok).2.1 (save_config st₀ disk₀ s .ok).2.2 = s := by
  refine ⟨rfl, rfl, ?_⟩
  simp [save_config, load_config, recordOf]

/-- C6 counterexample: an I/O failure raised by `json.dump` after
`open(file, 'w')` has already truncated the configuration file makes
`save_config` return `False` while the on-disk record is no longer the
record that was there before the call — the write is not atomic. -/
theorem save_config_fail_changes_disk :
    (save_config sampleState (.record (recordOf sampleState)) sampleState2 .failWrite).1
      = false ∧
    (save_config sampleState (.record (recordOf sampleState)) sampleState2 .failWrite).2.2
      ≠ .record (recordOf sampleState) := by
  exact ⟨rfl, by simp [save_config]⟩

/-- C6 amended: a successful `save_config` replaces the persisted record
wholesale with the full new state (never a partial merge); a failing call
leaves the in-memory scheduler fields unchanged, and also leaves the disk
unchanged when the failure occurs before the file is opened for writing —
but a failure during the write may leave a truncated record, since the
file is opened in truncating mode without an atomic replace. -/
theorem save_config_failure_effects (st : SchedulerState) (disk : DiskFile)
    (args : SchedulerState) :
    (save_config st disk args .ok).2.2 = .record (recordOf args) ∧
    ∀ w, (save_config st disk args w).1 = false →
      (save_config st disk args w).2.1 = st ∧
      (w = .failOpen → (save_config st disk args w).2.2 = disk) := by
  refine ⟨rfl, ?_⟩
  intro w hw
  cases w
  · simp [save_config] at hw
  · exact ⟨rfl, fun _ => rfl⟩
  · exact ⟨rfl, fun h => nomatch h⟩

/-- C6 witness: a failure at `open` leaves memory and disk as they were. -/
theorem save_config_failure_witness :
    (save_config sampleState .absent sampleState2 .failOpen).1 = false ∧
    (save_config sampleState .absent sampleState2 .failOpen).2.1 = sampleState ∧
    (save_config sampleState .absent sampleState2 .failOpen).2.2 = .absent := by
  have h := (save_config_failure_effects sampleState .absent sampleState2).2 .failOpen rfl
  exact ⟨rfl, h.1, h.2 rfl⟩

/-- C7: whenever a scheduled firing actually invokes the Run Orchestrator,
the argument record carries `send_to_telegram = True`, whatever
notification value the persisted configuration holds. -/
theorem run_analysis_forces_notification (cfg : StoredRunConfig) (a : SchedArgs)
    (h : (run_analysis cfg).invoked = some a) : a.send_to_telegram = true := by
  rw [run_analysis] at h
  by_cases hc : (parse_subreddit_config (cfg.subreddit_config.getD "")).isEmpty
  · rw [if_pos hc] at h
    exact absurd h (by simp)
  · rw [if_neg hc] at h
    simp only [Option.some.injEq] at h
    rw [← h]

/-- C7 witness: a stored configuration with `send_to_telegram = False`
still produces an invocation with the flag forced on. -/
theorem run_analysis_forces_notification_witness :
    (run_analysis sampleStoredCfg).invoked = some sampleSchedArgs ∧
    sampleSchedArgs.send_to_telegram = true :=
  ⟨by decide, run_analysis_forces_notification sampleStoredCfg sampleSchedArgs (by decide)⟩

/-- C10: when the stored subreddit string parses to an empty mapping, the
scheduled firing returns without invoking the workflow and without sending
an error notification (and, being an ordinary return inside the `try`
body, without raising — the check cycle simply polls on). -/
theorem run_analysis_empty_parse_skips (cfg : StoredRunConfig)
    (h : parse_subreddit_config (cfg.subreddit_config.getD "") = []) :
    run_analysis cfg = { invoked := none, error_notified := false } := by
  unfold run_analysis
  simp [h]

/-- C10 witness: a stored string with only invalid pairs (no colon, or a
non-integer limit) parses to the empty mapping and the firing is a no-op. -/
theorem run_analysis_empty_parse_witness :
    parse_subreddit_config (droppedPairsCfg.subreddit_config.getD "") = [] ∧
    run_analysis droppedPairsCfg = { invoked := none, error_notified := false } :=
  ⟨by decide, run_analysis_empty_parse_skips droppedPairsCfg (by decide)⟩

end NewsAgent

namespace NewsAgentV3

/-! ### Comment-ranking theorems -/

theorem RankedBelow.key_le {key : α → Int} {rank : α → Nat} {a b : α}
    (h : RankedBelow key rank a b) : key b ≤ key a := by
  rcases h with h | ⟨h, _⟩
  · omega
  · omega

theorem mem_insertByKeyDesc {key : α → Int} {x y : α} :
    ∀ {l : List α}, y ∈ insertByKeyDesc key x l → y = x ∨ y ∈ l := by
  intro l
  induction l with
  | nil => intro h; simp [insertByKeyDesc] at h; exact Or.inl h
  | cons z zs ih =>
    intro h
    rw [insertByKeyDesc] at h
    split at h
    · rcases List.mem_cons.mp h with h | h
      · exact Or.inl h
      · exact Or.inr h
    · rcases List.mem_cons.mp h with h | h
      · exact Or.inr (by simp [h])
      · rcases ih h with h | h
        · exact Or.inl h
        · exact Or.inr (List.mem_cons_of_mem _ h)

theorem mem_sortByKeyDesc {key : α → Int} {y : α} :
    ∀ {l : List α}, y ∈ sortByKeyDesc key l → y ∈ l := by
  intro l
  induction l with
  | nil => intro h; simp [sortByKeyDesc] at h
  | cons z zs ih =>
    intro h
    rw [sortByKeyDesc] at h
    rcases mem_insertByKeyDesc h with h | h
    · simp [h]
    · exact List.mem_cons_of_mem _ (ih h)

theorem pairwise_insertByKeyDesc {key : α → Int} {rank : α → Nat} {x : α} :
    ∀ {l : List α}, (∀ y ∈ l, rank x < rank y) →
      l.Pairwise (RankedBelow key rank) →
      (insertByKeyDesc key x l).Pairwise (RankedBelow key rank) := by
  intro l
  induction l with
  | nil => intro _ _; simp [insertByKeyDesc, RankedBelow, List.Pairwise]
  | cons y ys ih =>
    intro hrank hpw
    rw [insertByKeyDesc]
    rcases List.pairwise_cons.mp hpw with ⟨hy, hys⟩
    split
    · -- key y ≤ key x : x goes in front of y :: ys, before equal keys
      refine List.pairwise_cons.mpr ⟨?_, hpw⟩
      intro z hz
      rcases List.mem_cons.mp hz with rfl | hz
      · rcases lt_or_eq_of_le (by assumption : key z ≤ key x) with h | h
        · exact Or.inl h
        · exact Or.inr ⟨h.symm, hrank z (by simp)⟩
      · have hzy : key z ≤ key y := (hy z hz).key_le
        have hyx : key y ≤ key x := by assumption
        rcases lt_or_eq_of_le (le_trans hzy hyx) with h | h
        · exact Or.inl h
        · exact Or.inr ⟨h.symm, hrank z (List.mem_cons_of_mem _ hz)⟩
    · -- key y > key x : y stays in front
      refine List.pairwise_cons.mpr
        ⟨?_, ih (fun z hz => hrank z (List.mem_cons_of_mem _ hz)) hys⟩
      intro z hz
      rcases mem_insertByKeyDesc hz with rfl | hz
      · exact Or.inl (by omega)
      · exact hy z hz

/-- Sorting the index-decorated tail of an enumeration keeps every pair in
ranked-below order: strictly descending keys, encounter order on ties. -/
theorem pairwise_sortByKeyDesc_enumFrom {β : Type} (key : β → Int) :
    ∀ (l : List β) (n : Nat),
      (sortByKeyDesc (fun p => key p.2) (l.enumFrom n)).Pairwise
        (RankedBelow (fun p : Nat × β => key p.2) Prod.fst) := by
  intro l
  induction l with
  | nil => intro n; simp [List.enumFrom, sortByKeyDesc]
  | cons a l ih =>
    intro n
    rw [List.enumFrom, sortByKeyDesc]
    apply pairwise_insertByKeyDesc
    · intro y hy
      have hy' := mem_sortByKeyDesc hy
      have := List.le_fst_of_mem_enumFrom hy'
      simpa using Nat.lt_of_succ_le this
    · exact ih (n + 1)

/-- C9: the selected top comments of a post, and the selected replies of a
comment, are ordered by score strictly descending, with equal scores kept
in encounter order from the provider response (each element is paired with
its encounter index; replies without a score attribute rank as 0, as in
the source's key function). -/
theorem comments_and_replies_sorted_stable (commentScores : List Int)
    (replyScores : List (Option Int)) (top_comments_limit replies_per_comment : Nat) :
    (selectTopComments commentScores.enum top_comments_limit).Pairwise
      (RankedBelow (fun p => p.2) Prod.fst) ∧
    (selectTopReplies replyScores.enum replies_per_comment).Pairwise
      (RankedBelow (fun p => replyKey p.2) Prod.fst) := by
  constructor
  · exact (pairwise_sortByKeyDesc_enumFrom (fun x : Int => x) commentScores 0).sublist
      (List.take_sublist _ _)
  · exact (pairwise_sortByKeyDesc_enumFrom replyKey replyScores 0).sublist
      (List.take_sublist _ _)

/-! ### Workflow theorems -/

/-- C5: whenever the analysis adapter returns a text shorter than 100
characters (in particular an empty one), the orchestrator returns the
all-`None` error shape and the run directory is never created — the
length check sits before `save_analysis_to_file`, whose `mkdir` is what
creates the run folder. -/
theorem short_analysis_aborts (args : WorkflowArgs) (env : WorkflowEnv) (a : String)
    (ha : env.analysis = Except.ok a) (hlen : a.length < 100) :
    (run_complete_workflow args env).dir_created = false ∧
    (run_complete_workflow args env).ret.2.1 = none ∧
    (run_complete_workflow args env).ret.2.2.1 = none ∧
    (run_complete_workflow args env).ret.2.2.2.1 = none ∧
    (run_complete_workflow args env).ret.2.2.2.2 = none := by
  by_cases h1 : args.subreddit_config.isEmpty
  · simp [run_complete_workflow, h1]
  · by_cases h2 : env.env_valid.1
    · cases hf : fetch_all_reddit_data env args.subreddit_config with
      | error e => simp [run_complete_workflow, h1, h2, hf, workflow_error]
      | ok p =>
        obtain ⟨rd, raw⟩ := p
        by_cases hrd : rd.isEmpty
        · simp [run_complete_workflow, h1, h2, hf, hrd, workflow_error]
        · simp [run_complete_workflow, h1, h2, hf, hrd, ha, hlen, workflow_error]
    · simp [run_complete_workflow, h1, h2]

/-- C5 witness: a 40-character analysis yields the error shape and no run
directory. -/
theorem short_analysis_aborts_witness :
    shortAnalysis.length < 100 ∧
    (run_complete_workflow sampleArgs sampleEnvShort).dir_created = false ∧
    (run_complete_workflow sampleArgs sampleEnvShort).ret.2.1 = none :=
  ⟨by decide,
   (short_analysis_aborts sampleArgs sampleEnvShort shortAnalysis rfl (by decide)).1,
   (short_analysis_aborts sampleArgs sampleEnvShort shortAnalysis rfl (by decide)).2.1⟩

/-- C1: every orchestrator invocation resolves to bundle-or-error, never a
mix: either all four artifact-path components of the returned tuple are
`None`, or the mandatory raw-data and LLM-input paths are both present;
and whenever an exception is raised inside steps 2–5, the return value is
exactly the caught error message with all four components `None`. -/
theorem workflow_bundle_or_error (args : WorkflowArgs) (env : WorkflowEnv) :
    (((run_complete_workflow args env).ret.2.1 = none ∧
      (run_complete_workflow args env).ret.2.2.1 = none ∧
      (run_complete_workflow args env).ret.2.2.2.1 = none ∧
      (run_complete_workflow args env).ret.2.2.2.2 = none) ∨
     ((run_complete_workflow args env).ret.2.1.isSome = true ∧
      (run_complete_workflow args env).ret.2.2.2.2.isSome = true)) ∧
    (step_exception args env = true →
      ∃ e, (run_complete_workflow args env).ret =
        ("Error during workflow: " ++ e, none, none, none, none)) := by
  by_cases h1 : args.subreddit_config.isEmpty
  · refine ⟨Or.inl ?_, fun hs => ?_⟩
    · simp [run_complete_workflow, h1]
    · rw [step_exception] at hs; simp [h1] at hs
  · by_cases h2 : env.env_valid.1
    · cases hf : fetch_all_reddit_data env args.subreddit_config with
      | error e =>
        refine ⟨Or.inl ?_, fun _ => ⟨e, ?_⟩⟩ <;>
          simp [run_complete_workflow, h1, h2, hf, workflow_error]
      | ok p =>
        obtain ⟨rd, raw⟩ := p
        by_cases hrd : rd.isEmpty
        · refine ⟨Or.inl ?_, fun _ => ⟨"No posts found", ?_⟩⟩ <;>
            simp [run_complete_workflow, h1, h2, hf, hrd, workflow_error]
        · cases ha : env.analysis with
          | error e =>
            refine ⟨Or.inl ?_, fun _ => ⟨e, ?_⟩⟩ <;>
              simp [run_complete_workflow, h1, h2, hf, hrd, ha, workflow_error]
          | ok a =>
            by_cases hlen : (a.isEmpty || decide (a.length < 100)) = true
            · refine ⟨Or.inl ?_, fun _ => ⟨"Analysis too short or empty", ?_⟩⟩ <;>
                simp [run_complete_workflow, h1, h2, hf, hrd, ha, hlen, workflow_error]
            · by_cases hsa : env.save_analysis_ok
              · cases hl : env.save_llm with
                | error e =>
                  refine ⟨Or.inl ?_, fun _ => ⟨e, ?_⟩⟩ <;>
                    simp [run_complete_workflow, h1, h2, hf, hrd, ha, hlen, hsa, hl,
                      workflow_error]
                | ok u =>
                  cases he : emails_fetched args env with
                  | none =>
                    refine ⟨Or.inr ?_, fun hs => ?_⟩
                    · simp [run_complete_workflow, h1, h2, hf, hrd, ha, hlen, hsa, hl, he]
                    · rw [step_exception] at hs
                      simp [h1, h2, hf, hrd, ha, hsa, hl, he] at hs
                      simp only [Bool.or_eq_true, decide_eq_true_eq, not_or] at hlen
                      rcases hs with hs | hs
                      · exact absurd hs hlen.1
                      · exact absurd hs hlen.2
                  | some es =>
                    cases hse : env.save_email with
                    | error e =>
                      refine ⟨Or.inl ?_, fun _ => ⟨e, ?_⟩⟩ <;>
                        simp [run_complete_workflow, h1, h2, hf, hrd, ha, hlen, hsa, hl,
                          he, hse, workflow_error]
                    | ok v =>
                      refine ⟨Or.inr ?_, fun hs => ?_⟩
                      · simp [run_complete_workflow, h1, h2, hf, hrd, ha, hlen, hsa, hl,
                          he, hse]
                      · rw [step_exception] at hs
                        simp [h1, h2, hf, hrd, ha, hsa, hl, he, hse] at hs
                        simp only [Bool.or_eq_true, decide_eq_true_eq, not_or] at hlen
                        rcases hs with hs | hs
                        · exact absurd hs hlen.1
                        · exact absurd hs hlen.2
              · refine ⟨Or.inl ?_, fun _ => ⟨"Failed to save analysis files", ?_⟩⟩ <;>
                  simp [run_complete_workflow, h1, h2, hf, hrd, ha, hlen, hsa, workflow_error]
    · refine ⟨Or.inl ?_, fun hs => ?_⟩
      · simp [run_complete_workflow, h1, h2]
      · rw [step_exception] at hs; simp [h2] at hs

/-- C1 witness: with a too-short analysis an exception is raised in step 3
and the orchestrator returns the error message with four `None`s. -/
theorem workflow_bundle_or_error_witness :
    step_exception sampleArgs sampleEnvShort = true ∧
    ∃ e, (run_complete_workflow sampleArgs sampleEnvShort).ret =
      ("Error during workflow: " ++ e, none, none, none, none) :=
  ⟨by decide, (workflow_bundle_or_error sampleArgs sampleEnvShort).2 (by decide)⟩

/-- C4: a board whose listing raises is replaced by an inline error-marker
string with an empty link list, a post whose comment fetch raises
contributes its raw-data entry with the inline marker in place of the
comment text, and the run proceeds whenever at least one link was
discovered; but zero discovered links across all boards abort the fetch
with an error, the orchestrator returns the error shape, and no run
directory is created. -/
theorem fetch_failures_inline_zero_links_abort (args : WorkflowArgs) (env : WorkflowEnv) :
    (∀ name e, env.fetch_top name = .error e →
      fetch_top_posts env name = (board_error_msg name e, [])) ∧
    (∀ link e, env.fetch_comments link = .error e →
      raw_post_entry env link =
        "LINK: " ++ link ++ "\n\n" ++ comments_error_msg link e ++ "\n\n" ++ sep80 ++ "\n\n") ∧
    (all_links env args.subreddit_config ≠ [] →
      ∃ full raw, fetch_all_reddit_data env args.subreddit_config = .ok (full, raw)) ∧
    (all_links env args.subreddit_config = [] →
      fetch_all_reddit_data env args.subreddit_config =
        .error "No posts found from any subreddit" ∧
      (run_complete_workflow args env).dir_created = false ∧
      (run_complete_workflow args env).ret.2.1 = none ∧
      (run_complete_workflow args env).ret.2.2.2.2 = none) := by
  refine ⟨?_, ?_, ?_, ?_⟩
  · intro name e h
    simp [fetch_top_posts, h]
  · intro link e h
    simp [raw_post_entry, fetch_post_comments, h]
  · intro h
    refine ⟨String.intercalate "\n\n"
        ((all_links env args.subreddit_config).map (fetch_post_comments env)),
      "REDDIT RAW DATA - POSTS AND COMMENTS\n" ++ sep80 ++ "\n\n"
        ++ String.join ((all_links env args.subreddit_config).map (raw_post_entry env)), ?_⟩
    rw [fetch_all_reddit_data, if_neg (by simp [h])]
  · intro h
    have hfa : fetch_all_reddit_data env args.subreddit_config =
        .error "No posts found from any subreddit" := by
      rw [fetch_all_reddit_data, if_pos (by simp [h])]
    refine ⟨hfa, ?_⟩
    by_cases h1 : args.subreddit_config.isEmpty
    · simp [run_complete_workflow, h1]
    · by_cases h2 : env.env_valid.1
      · simp [run_complete_workflow, h1, h2, hfa, workflow_error]
      · simp [run_complete_workflow, h1, h2]

/-- C4 witness: with every provider call raising, the board text is the
inline marker, a raw entry carries the inline marker, no link is found and
the run aborts without a directory; with the healthy environment the fetch
returns a pair. -/
theorem fetch_failures_witness :
    fetch_top_posts sampleEnvNoLinks "test" = (board_error_msg "test" "boom", []) ∧
    raw_post_entry sampleEnvNoLinks "u" =
      "LINK: " ++ "u" ++ "\n\n" ++ comments_error_msg "u" "bust" ++ "\n\n" ++ sep80 ++ "\n\n" ∧
    (∃ full raw, fetch_all_reddit_data sampleEnvOk sampleArgs.subreddit_config =
      .ok (full, raw)) ∧
    (run_complete_workflow sampleArgs sampleEnvNoLinks).dir_created = false ∧
    (run_complete_workflow sampleArgs sampleEnvNoLinks).ret.2.1 = none :=
  ⟨(fetch_failures_inline_zero_links_abort sampleArgs sampleEnvNoLinks).1 "test" "boom" rfl,
   (fetch_failures_inline_zero_links_abort sampleArgs sampleEnvNoLinks).2.1 "u" "bust" rfl,
   (fetch_failures_inline_zero_links_abort sampleArgs sampleEnvOk).2.2.1 (by decide),
   ((fetch_failures_inline_zero_links_abort sampleArgs sampleEnvNoLinks).2.2.2 (by decide)).2.1,
   ((fetch_failures_inline_zero_links_abort sampleArgs sampleEnvNoLinks).2.2.2 (by decide)).2.2.1⟩

/-- C8: once fetch, analysis and persistence have completed, the
orchestrator returns the bundle's artifact paths whatever the narration
and notification outcomes: the returned tuple is fully determined by the
run folder, the TTS outcome and the fetched emails (no Telegram flag
occurs in it), a narration failure merely makes the audio component
`none`, and when notification is requested its reported success is the
conjunction of the message, document and (if audio exists) audio sends. -/
theorem success_paths_immune_to_failures (args : WorkflowArgs) (env : WorkflowEnv)
    (rd raw a : String)
    (h1 : args.subreddit_config.isEmpty = false)
    (h2 : env.env_valid.1 = true)
    (hf : fetch_all_reddit_data env args.subreddit_config = Except.ok (rd, raw))
    (hrd : rd.isEmpty = false)
    (ha : env.analysis = Except.ok a)
    (hlen : 100 ≤ a.length)
    (hsa : env.save_analysis_ok = true)
    (hl : env.save_llm = Except.ok ())
    (hse : ∀ es, emails_fetched args env = some es → env.save_email = Except.ok ()) :
    (run_complete_workflow args env).ret =
      (env.run_folder ++ "/analysis.txt",
       some (env.run_folder ++ "/raw_data.txt"),
       workflow_audio args env,
       (emails_fetched args env).map (fun _ => env.run_folder ++ "/emails.json"),
       some (env.run_folder ++ "/llm_input.txt")) ∧
    (run_complete_workflow args env).telegram =
      (if args.send_to_telegram then
        some (env.tg_msg_ok && env.tg_file_ok &&
          (match workflow_audio args env with
           | some _ => env.tg_audio_ok
           | none => true))
      else none) ∧
    (∀ e, env.tts = .error e → (run_complete_workflow args env).ret.2.2.1 = none) := by
  have hlen' : (a.isEmpty || decide (a.length < 100)) = false := by
    have : a.isEmpty = false := by
      rcases he : a.isEmpty with _ | _
      · rfl
      · have : a = "" := (String.isEmpty_iff a).mp he
        subst this
        simp at hlen
    simp [this]
    omega
  have main : (run_complete_workflow args env).ret =
      (env.run_folder ++ "/analysis.txt",
       some (env.run_folder ++ "/raw_data.txt"),
       workflow_audio args env,
       (emails_fetched args env).map (fun _ => env.run_folder ++ "/emails.json"),
       some (env.run_folder ++ "/llm_input.txt")) ∧
      (run_complete_workflow args env).telegram =
      (if args.send_to_telegram then
        some (send_analysis_results env (workflow_audio args env))
      else none) := by
    cases he : emails_fetched args env with
    | none =>
      constructor <;>
        simp [run_complete_workflow, h1, h2, hf, hrd, ha, hlen', hsa, hl, he]
    | some es =>
      have hok := hse es he
      constructor <;>
        simp [run_complete_workflow, h1, h2, hf, hrd, ha, hlen', hsa, hl, he, hok]
  refine ⟨main.1, ?_, ?_⟩
  · rw [main.2]
    rfl
  · intro e hts
    rw [main.1]
    simp [workflow_audio, hts]

/-- C8 witness: a run in which the TTS provider raises and the Telegram
message send fails still returns the three file paths, with no audio and
a reported notification success of `false`. -/
theorem success_paths_witness :
    (run_complete_workflow sampleArgs sampleEnvOk).ret =
      (sampleEnvOk.run_folder ++ "/analysis.txt",
       some (sampleEnvOk.run_folder ++ "/raw_data.txt"),
       none,
       none,
       some (sampleEnvOk.run_folder ++ "/llm_input.txt")) ∧
    (run_complete_workflow sampleArgs sampleEnvOk).telegram = some false := by
  have h := success_paths_immune_to_failures sampleArgs sampleEnvOk
    sampleFull sampleRaw sampleAnalysis rfl rfl rfl rfl rfl (by decide) rfl rfl
    (fun es hes => nomatch hes)
  exact ⟨h.1.trans (by rfl), h.2.1.trans (by rfl)⟩

end NewsAgentV3
